import Mathlib

/-!
Shallow embedding of the projectile-motion physics core
(`PhysicsEngine`, `Projectile`, `TrajectoryPredictor.calculateTrajectory`).
JavaScript numbers are modelled as real numbers; the `{x, y, vx, vy}`
kinematic records become the structure `KState`, and the mutable
`Projectile` object becomes a record transformed functionally by
`reset` / `launch` / `update`.
-/

/-- Kinematic state `{x, y, vx, vy}` (positions in m, velocities in m/s). -/
structure KState where
  x : ℝ
  y : ℝ
  vx : ℝ
  vy : ℝ

namespace PhysicsEngine

/-- `this.AIR_DENSITY = 1.225` (kg/m³). -/
def AIR_DENSITY : ℝ := 1.225

/-- `this.DRAG_COEFFICIENT = 0.47` (sphere). -/
def DRAG_COEFFICIENT : ℝ := 0.47

/-- `this.dt = 0.016` — fixed simulation time step (s). -/
def dt : ℝ := 0.016

/-- `calculateNoAirResistance(v0, angle, g, t)`: closed-form state at time
`t` for the drag-free projectile; `angle` is in degrees. -/
noncomputable def calculateNoAirResistance (v0 angle g t : ℝ) : KState :=
  let rad := angle * Real.pi / 180
  let v0x := v0 * Real.cos rad
  let v0y := v0 * Real.sin rad
  { x := v0x * t
    y := v0y * t - 0.5 * g * t * t
    vx := v0x
    vy := v0y - g * t }

/-- `calculateDragForce(vx, vy, diameter)` returning `{fx, fy}`:
`F = 0.5·ρ·v²·Cd·A` directed against the velocity, with the division by
`v` guarded by `v > 0`. -/
noncomputable def calculateDragForce (vx vy diameter : ℝ) : ℝ × ℝ :=
  let v := Real.sqrt (vx * vx + vy * vy)
  let area := Real.pi * (diameter / 2) ^ 2
  let dragMagnitude := 0.5 * AIR_DENSITY * v * v * DRAG_COEFFICIENT * area
  (if v > 0 then -dragMagnitude * (vx / v) else 0,
   if v > 0 then -dragMagnitude * (vy / v) else 0)

/-- `calculateWindForce(windSpeed, diameter)`: horizontal force
`0.5·ρ·windSpeed·|windSpeed|·Cd·A`, zero vertical component. -/
noncomputable def calculateWindForce (windSpeed diameter : ℝ) : ℝ × ℝ :=
  let area := Real.pi * (diameter / 2) ^ 2
  let windForce := 0.5 * AIR_DENSITY * windSpeed * |windSpeed| *
    DRAG_COEFFICIENT * area
  (windForce, 0)

/-- `integrateStep(state, mass, diameter, g, airResistance, windSpeed)`:
one explicit Euler step of length `dt`, with gravity always, drag iff
`airResistance`, and the horizontal wind term iff `windSpeed ≠ 0`. -/
noncomputable def integrateStep (state : KState) (mass diameter g : ℝ)
    (airResistance : Bool) (windSpeed : ℝ) : KState :=
  let ax₀ : ℝ := 0
  let ay₀ : ℝ := -g
  let ax₁ := if airResistance = true then
    ax₀ + (calculateDragForce state.vx state.vy diameter).1 / mass else ax₀
  let ay₁ := if airResistance = true then
    ay₀ + (calculateDragForce state.vx state.vy diameter).2 / mass else ay₀
  let ax₂ := if windSpeed ≠ 0 then
    ax₁ + (calculateWindForce windSpeed diameter).1 / mass else ax₁
  { x := state.x + state.vx * dt
    y := state.y + state.vy * dt
    vx := state.vx + ax₂ * dt
    vy := state.vy + ay₁ * dt }

end PhysicsEngine

/-- The launch parameters handed to the `Projectile` constructor
(`params.color` is presentation-only and omitted; `params.windSpeed || 0`
is modelled by the caller always supplying a number, defaulting to 0). -/
structure LaunchParams where
  velocity : ℝ
  angle : ℝ
  mass : ℝ
  diameter : ℝ
  gravity : ℝ
  airResistance : Bool
  windSpeed : ℝ

/-- The `Projectile` object: immutable per-flight parameters plus the
mutable simulation fields. -/
structure Projectile where
  v0 : ℝ
  angle : ℝ
  mass : ℝ
  diameter : ℝ
  gravity : ℝ
  airResistance : Bool
  windSpeed : ℝ
  state : KState
  time : ℝ
  isFlying : Bool
  hasLanded : Bool
  trajectory : List (ℝ × ℝ)
  maxHeight : ℝ
  range : ℝ

namespace Projectile

/-- `this.maxTrajectoryPoints = 500`, set once in the constructor and
never changed. -/
def maxTrajectoryPoints : ℕ := 500

/-- `reset()`: reinitialize the kinematic state from `v0` and `angle`,
clear time, flags, trajectory, maxHeight and range. -/
noncomputable def reset (p : Projectile) : Projectile :=
  let rad := p.angle * Real.pi / 180
  { p with
    state := { x := 0, y := 0, vx := p.v0 * Real.cos rad,
               vy := p.v0 * Real.sin rad }
    time := 0
    isFlying := false
    hasLanded := false
    trajectory := []
    maxHeight := 0
    range := 0 }

/-- The constructor `new Projectile(params)`: copy the parameters, then
`reset()` (the constructor's later `this.trajectory = []` re-clears a
field `reset` already cleared). -/
noncomputable def create (params : LaunchParams) : Projectile :=
  reset
    { v0 := params.velocity
      angle := params.angle
      mass := params.mass
      diameter := params.diameter
      gravity := params.gravity
      airResistance := params.airResistance
      windSpeed := params.windSpeed
      state := { x := 0, y := 0, vx := 0, vy := 0 }
      time := 0
      isFlying := false
      hasLanded := false
      trajectory := []
      maxHeight := 0
      range := 0 }

/-- `launch()`: `reset()` then `isFlying = true`. -/
noncomputable def launch (p : Projectile) : Projectile :=
  { p.reset with isFlying := true }

/-- The state the physics update of one tick produces: `integrateStep` if
drag or wind is active, otherwise `calculateNoAirResistance` evaluated at
the current (pre-increment) `time`. -/
noncomputable def nextState (p : Projectile) : KState :=
  if p.airResistance = true ∨ p.windSpeed ≠ 0 then
    PhysicsEngine.integrateStep p.state p.mass p.diameter p.gravity
      p.airResistance p.windSpeed
  else
    PhysicsEngine.calculateNoAirResistance p.v0 p.angle p.gravity p.time

/-- The trajectory after the sampling step at the top of `update()`: the
current position is appended only while the stored count is below
`maxTrajectoryPoints`. -/
noncomputable def tickTrajectory (p : Projectile) : List (ℝ × ℝ) :=
  if p.trajectory.length < maxTrajectoryPoints then
    p.trajectory ++ [(p.state.x, p.state.y)]
  else p.trajectory

/-- The `maxHeight` after one tick: raised to the post-step `y` when that
exceeds it (`if (this.state.y > this.maxHeight)`). -/
noncomputable def tickMaxHeight (p : Projectile) : ℝ :=
  if p.nextState.y > p.maxHeight then p.nextState.y else p.maxHeight

/-- `update()`: no-op unless flying and not landed; append the current
position to the trajectory while under the cap; advance the physics and
the clock; track `maxHeight`; land (clamp `y`, flip the flags, record
`range`) when the new `y ≤ 0` and the advanced `time > 0.01`. -/
noncomputable def update (p : Projectile) : Projectile :=
  if p.isFlying = false ∨ p.hasLanded = true then p
  else if p.nextState.y ≤ 0 ∧ p.time + PhysicsEngine.dt > 0.01 then
    { p with
      trajectory := tickTrajectory p
      state := { p.nextState with y := 0 }
      time := p.time + PhysicsEngine.dt
      maxHeight := tickMaxHeight p
      hasLanded := true
      isFlying := false
      range := p.nextState.x }
  else
    { p with
      trajectory := tickTrajectory p
      state := p.nextState
      time := p.time + PhysicsEngine.dt
      maxHeight := tickMaxHeight p }

end Projectile

/-- States reachable from construction by any sequence of `launch()`,
`update()` and `reset()` calls. -/
inductive Reachable : Projectile → Prop
  | created (params : LaunchParams) : Reachable (Projectile.create params)
  | launched {p : Projectile} : Reachable p → Reachable p.launch
  | updated {p : Projectile} : Reachable p → Reachable p.update
  | hasReset {p : Projectile} : Reachable p → Reachable p.reset

/-- The parameter record read by `TrajectoryPredictor.calculateTrajectory`
(it additionally consults `params.windEnabled`). -/
structure PredictParams where
  velocity : ℝ
  angle : ℝ
  mass : ℝ
  diameter : ℝ
  gravity : ℝ
  airResistance : Bool
  windEnabled : Bool
  windSpeed : ℝ

namespace TrajectoryPredictor

/-- The physics advance of one predictor iteration: `integrateStep` (whose
own fixed `dt = 0.016` is used) if drag or enabled wind is active,
otherwise `calculateNoAirResistance` at the current loop time `t`. -/
noncomputable def predictStep (params : PredictParams) (state : KState)
    (t : ℝ) : KState :=
  if params.airResistance = true ∨
      (params.windEnabled = true ∧ params.windSpeed ≠ 0) then
    PhysicsEngine.integrateStep state params.mass params.diameter
      params.gravity params.airResistance
      (if params.windEnabled = true then params.windSpeed else 0)
  else
    PhysicsEngine.calculateNoAirResistance params.velocity params.angle
      params.gravity t

/-- The loop `for (let t = 0; t < maxTime; t += dt)` of
`calculateTrajectory` with `dt = 0.05`, `maxTime = 30`, written with the
number of remaining iterations explicit: in exact arithmetic the loop
variable takes exactly the 600 values `0, 0.05, …, 29.95`. Each iteration
pushes the current position, then breaks if `y < 0 ∧ t > 0.01`, then
advances the throwaway state. -/
noncomputable def calcTrajectoryAux (params : PredictParams) :
    ℕ → ℝ → KState → List (ℝ × ℝ)
  | 0, _, _ => []
  | n + 1, t, state =>
    if state.y < 0 ∧ t > 0.01 then [(state.x, state.y)]
    else (state.x, state.y) ::
      calcTrajectoryAux params n (t + 0.05) (predictStep params state t)

/-- `calculateTrajectory(params)`: run the bounded prediction loop from a
locally created state at the launch point. -/
noncomputable def calculateTrajectory (params : PredictParams) :
    List (ℝ × ℝ) :=
  calcTrajectoryAux params 600 0
    { x := 0
      y := 0
      vx := params.velocity * Real.cos (params.angle * Real.pi / 180)
      vy := params.velocity * Real.sin (params.angle * Real.pi / 180) }

end TrajectoryPredictor

/-- The post-step `y` samples (`nextState.y`) produced by the first `n`
`update()` ticks from `p`, in order; a tick contributes a sample exactly
when it finds the projectile flying and not yet landed. -/
noncomputable def observedYs (p : Projectile) : ℕ → List ℝ
  | 0 => []
  | n + 1 =>
    let q := Projectile.update^[n] p
    if q.isFlying = true ∧ q.hasLanded = false then
      observedYs p n ++ [q.nextState.y]
    else observedYs p n

/-! ### Concrete test fixtures -/

/-- `v0 = 10, angle = 0°, g = 9.81`, drag off, no wind (the spec's
zero-angle guard scenario). -/
noncomputable def zeroAngleParams : LaunchParams :=
  { velocity := 10, angle := 0, mass := 1, diameter := 0.1, gravity := 9.81
    airResistance := false, windSpeed := 0 }

/-- `v0 = 10, angle = 90°, g = 9.81`, drag off, no wind. -/
noncomputable def verticalParams : LaunchParams :=
  { velocity := 10, angle := 90, mass := 1, diameter := 0.1, gravity := 9.81
    airResistance := false, windSpeed := 0 }

/-- A straight-up flight with drag enabled; the diameter `2/√π > 0` gives
cross-sectional area `π·(d/2)² = 1`. -/
noncomputable def dragParams : LaunchParams :=
  { velocity := 0.1, angle := 90, mass := 1
    diameter := 2 / Real.sqrt Real.pi, gravity := 9.81
    airResistance := true, windSpeed := 0 }

/-- The same flight as `dragParams` with drag disabled. -/
noncomputable def noDragParams : LaunchParams :=
  { velocity := 0.1, angle := 90, mass := 1
    diameter := 2 / Real.sqrt Real.pi, gravity := 9.81
    airResistance := false, windSpeed := 0 }

/-- A projectile that has already landed. -/
noncomputable def landedProjectile : Projectile :=
  { v0 := 10, angle := 0, mass := 1, diameter := 0.1, gravity := 9.81
    airResistance := false, windSpeed := 0
    state := { x := 0, y := 0, vx := 10, vy := 0 }
    time := 0.016, isFlying := false, hasLanded := true
    trajectory := [(0, 0)], maxHeight := 0, range := 0 }

/-- Predictor parameters for a straight-down launch (`angle = -90°`),
whose preview reaches `y < 0` at its third point. -/
noncomputable def downwardPredictParams : PredictParams :=
  { velocity := 10, angle := -90, mass := 1, diameter := 0.1
    gravity := 9.81, airResistance := false, windEnabled := false
    windSpeed := 0 }

/-! ## Theorems -/

/-- C8: `calculateDragForce` is total: when the speed
`v = sqrt(vx² + vy²)` is `0` it returns exactly `(0, 0)` — the division
by `v` is guarded by `v > 0` — and for `v > 0` it returns the force of
magnitude `0.5·1.225·v²·0.47·π·(diameter/2)²` directed opposite the
velocity unit vector. -/
theorem C8_calculateDragForce_total (vx vy diameter : ℝ) :
    (Real.sqrt (vx ^ 2 + vy ^ 2) = 0 →
      PhysicsEngine.calculateDragForce vx vy diameter = (0, 0)) ∧
    (0 < Real.sqrt (vx ^ 2 + vy ^ 2) →
      PhysicsEngine.calculateDragForce vx vy diameter =
        (-(0.5 * 1.225 * Real.sqrt (vx ^ 2 + vy ^ 2) ^ 2 * 0.47 *
              (Real.pi * (diameter / 2) ^ 2)) *
            (vx / Real.sqrt (vx ^ 2 + vy ^ 2)),
         -(0.5 * 1.225 * Real.sqrt (vx ^ 2 + vy ^ 2) ^ 2 * 0.47 *
              (Real.pi * (diameter / 2) ^ 2)) *
            (vy / Real.sqrt (vx ^ 2 + vy ^ 2)))) := by
  have hV : Real.sqrt (vx * vx + vy * vy) = Real.sqrt (vx ^ 2 + vy ^ 2) := by
    ring_nf
  unfold PhysicsEngine.calculateDragForce
  simp only [PhysicsEngine.AIR_DENSITY, PhysicsEngine.DRAG_COEFFICIENT, hV]
  constructor
  · intro h
    rw [h]
    norm_num
  · intro h
    rw [if_pos h, if_pos h, Prod.mk.injEq]
    constructor <;> ring

/-- Witness for C8 at `(vx, vy, diameter) = (3, 4, 2)`, where
`v = sqrt(3² + 4²) = 5 > 0`. -/
theorem C8_witness :
    PhysicsEngine.calculateDragForce 3 4 2 =
      (-(0.5 * 1.225 * (5 : ℝ) ^ 2 * 0.47 * (Real.pi * ((2 : ℝ) / 2) ^ 2)) *
          (3 / 5),
       -(0.5 * 1.225 * (5 : ℝ) ^ 2 * 0.47 * (Real.pi * ((2 : ℝ) / 2) ^ 2)) *
          (4 / 5)) := by
  have h5 : Real.sqrt ((3 : ℝ) ^ 2 + 4 ^ 2) = 5 := by
    rw [show ((3 : ℝ) ^ 2 + 4 ^ 2) = 5 ^ 2 by norm_num,
      Real.sqrt_sq (by norm_num)]
  have h := (C8_calculateDragForce_total 3 4 2).2 (by rw [h5]; norm_num)
  rw [h, h5]

/-- C3: `integrateStep` returns exactly the forward-Euler update
`{x + vx·dt, y + vy·dt, vx + ax·dt, vy + ay·dt}` with `dt = 0.016`, where
`ay` is `-g` plus — iff `airResistance` — the vertical drag acceleration,
and `ax` is the horizontal drag acceleration (iff `airResistance`) plus —
iff `windSpeed ≠ 0` — the purely horizontal wind acceleration
`0.5·1.225·windSpeed·|windSpeed|·0.47·A / mass`. -/
theorem C3_integrateStep_euler (s : KState) (mass diameter g : ℝ)
    (air : Bool) (windSpeed : ℝ) :
    PhysicsEngine.integrateStep s mass diameter g air windSpeed =
      { x := s.x + s.vx * 0.016
        y := s.y + s.vy * 0.016
        vx := s.vx +
          ((if air = true then
              -(0.5 * 1.225 * Real.sqrt (s.vx ^ 2 + s.vy ^ 2) ^ 2 * 0.47 *
                  (Real.pi * (diameter / 2) ^ 2)) / mass *
                (s.vx / Real.sqrt (s.vx ^ 2 + s.vy ^ 2))
            else 0) +
            (if windSpeed ≠ 0 then
              0.5 * 1.225 * windSpeed * |windSpeed| * 0.47 *
                (Real.pi * (diameter / 2) ^ 2) / mass
            else 0)) * 0.016
        vy := s.vy +
          (-g +
            (if air = true then
              -(0.5 * 1.225 * Real.sqrt (s.vx ^ 2 + s.vy ^ 2) ^ 2 * 0.47 *
                  (Real.pi * (diameter / 2) ^ 2)) / mass *
                (s.vy / Real.sqrt (s.vx ^ 2 + s.vy ^ 2))
            else 0)) * 0.016 } := by
  have hV : Real.sqrt (s.vx * s.vx + s.vy * s.vy)
      = Real.sqrt (s.vx ^ 2 + s.vy ^ 2) := by ring_nf
  unfold PhysicsEngine.integrateStep PhysicsEngine.calculateDragForce
    PhysicsEngine.calculateWindForce
  simp only [PhysicsEngine.AIR_DENSITY, PhysicsEngine.DRAG_COEFFICIENT,
    PhysicsEngine.dt, hV, KState.mk.injEq]
  refine ⟨by norm_num, by norm_num, ?_, ?_⟩ <;>
    rcases (Real.sqrt_nonneg (s.vx ^ 2 + s.vy ^ 2)).lt_or_eq with hv | hv
  · split_ifs <;> ring
  · rw [← hv]
    split_ifs <;> ring
  · split_ifs <;> ring
  · rw [← hv]
    split_ifs <;> ring

/-- C5: once `hasLanded` is true, every further `update()` call is a
no-op: the whole record — state, time, range, trajectory, maxHeight,
`isFlying` and `hasLanded` itself — keeps exactly the value it had, for
any number of further calls. -/
theorem C5_update_noop_after_landing (p : Projectile) (n : ℕ)
    (h : p.hasLanded = true) : Projectile.update^[n] p = p := by
  have h1 : Projectile.update p = p := by
    unfold Projectile.update
    rw [if_pos (Or.inr h)]
  induction n with
  | zero => rfl
  | succ n ih => rw [Function.iterate_succ_apply, h1, ih]

/-- Witness for C5: a landed projectile is unchanged by five further
`update()` calls. -/
theorem C5_witness :
    landedProjectile.hasLanded = true ∧
    Projectile.update^[5] landedProjectile = landedProjectile :=
  ⟨rfl, C5_update_noop_after_landing landedProjectile 5 rfl⟩

/-- C7: in every state reachable by construction followed by any sequence
of `launch()`, `update()` and `reset()` calls, `isFlying` and `hasLanded`
are never both true; and both are false immediately after construction
and immediately after any `reset()`. -/
theorem C7_flags_mutually_exclusive :
    (∀ p : Projectile, Reachable p →
      ¬(p.isFlying = true ∧ p.hasLanded = true)) ∧
    (∀ params : LaunchParams,
      (Projectile.create params).isFlying = false ∧
      (Projectile.create params).hasLanded = false) ∧
    (∀ p : Projectile,
      p.reset.isFlying = false ∧ p.reset.hasLanded = false) := by
  refine ⟨?_, ?_, ?_⟩
  · intro p hp
    induction hp with
    | created params => simp [Projectile.create, Projectile.reset]
    | launched _ _ => simp [Projectile.launch, Projectile.reset]
    | updated hq ih =>
      unfold Projectile.update
      split_ifs with h1 h2
      · exact ih
      · simp
      · simpa using ih
    | hasReset _ _ => simp [Projectile.reset]
  · exact fun params => ⟨rfl, rfl⟩
  · exact fun p => ⟨rfl, rfl⟩

/-- Witness for C7 at a freshly constructed projectile. -/
theorem C7_witness :
    ¬((Projectile.create zeroAngleParams).isFlying = true ∧
      (Projectile.create zeroAngleParams).hasLanded = true) :=
  C7_flags_mutually_exclusive.1 _ (Reachable.created zeroAngleParams)

/-- Evaluation of `launch()` on a fresh zero-angle projectile. -/
theorem launch_zeroAngle_eval :
    Projectile.launch (Projectile.create zeroAngleParams) =
      { v0 := 10, angle := 0, mass := 1, diameter := 0.1, gravity := 9.81
        airResistance := false, windSpeed := 0
        state := { x := 0, y := 0, vx := 10, vy := 0 }
        time := 0, isFlying := true, hasLanded := false
        trajectory := [], maxHeight := 0, range := 0 } := by
  unfold Projectile.launch Projectile.create Projectile.reset zeroAngleParams
  simp only [Projectile.mk.injEq, KState.mk.injEq]
  norm_num

/-- Evaluation of the first tick of the zero-angle flight: the no-drag
path computes the state at the pre-increment time `0`, whose `y = 0`
together with the advanced `time = 0.016 > 0.01` lands the flight
immediately with `range = 0`. -/
theorem update_zeroAngle_eval :
    Projectile.update (Projectile.launch (Projectile.create
      zeroAngleParams)) =
      { v0 := 10, angle := 0, mass := 1, diameter := 0.1, gravity := 9.81
        airResistance := false, windSpeed := 0
        state := { x := 0, y := 0, vx := 10, vy := 0 }
        time := 0.016, isFlying := false, hasLanded := true
        trajectory := [(0, 0)], maxHeight := 0, range := 0 } := by
  rw [launch_zeroAngle_eval]
  norm_num [Projectile.update, Projectile.nextState,
    Projectile.tickTrajectory, Projectile.tickMaxHeight,
    PhysicsEngine.calculateNoAirResistance, Projectile.maxTrajectoryPoints,
    PhysicsEngine.dt, Projectile.mk.injEq, KState.mk.injEq]

/-- C2: an `update()` tick while flying lands the projectile iff the
post-step `y ≤ 0` and the advanced elapsed time exceeds `0.01`; landing
clamps `y` to exactly `0`, clears `isFlying`, records `range` as the
post-step `x`, and can only happen with the elapsed time above `0.01`. -/
theorem C2_landing_condition (p : Projectile) (hf : p.isFlying = true)
    (hl : p.hasLanded = false) :
    ((Projectile.update p).hasLanded = true ↔
      (p.nextState.y ≤ 0 ∧ p.time + PhysicsEngine.dt > 0.01)) ∧
    ((Projectile.update p).hasLanded = true →
      (Projectile.update p).state.y = 0 ∧
      (Projectile.update p).isFlying = false ∧
      (Projectile.update p).range = p.nextState.x ∧
      (Projectile.update p).time > 0.01) := by
  have hno : ¬(p.isFlying = false ∨ p.hasLanded = true) := by simp [hf, hl]
  unfold Projectile.update
  rw [if_neg hno]
  by_cases hc : p.nextState.y ≤ 0 ∧ p.time + PhysicsEngine.dt > 0.01
  · rw [if_pos hc]
    exact ⟨iff_of_true rfl hc, fun _ => ⟨rfl, rfl, rfl, hc.2⟩⟩
  · rw [if_neg hc]
    refine ⟨⟨fun h => absurd h (by simp [hl]), fun h => absurd h hc⟩,
      fun h => absurd h (by simp [hl])⟩

/-- Witness for C2: the first tick of the zero-angle flight satisfies the
landing condition and lands. -/
theorem C2_witness :
    (Projectile.update (Projectile.launch (Projectile.create
      zeroAngleParams))).hasLanded = true :=
  ((C2_landing_condition _ (by rw [launch_zeroAngle_eval])
      (by rw [launch_zeroAngle_eval])).1).mpr
    ⟨by
      rw [launch_zeroAngle_eval]
      norm_num [Projectile.nextState, PhysicsEngine.calculateNoAirResistance],
     by rw [launch_zeroAngle_eval]; norm_num [PhysicsEngine.dt]⟩

/-- C10 (amended): an active tick appends the pre-step position — the
state as it stood at the start of the tick — and only while fewer than
500 points are stored, so the trajectory of any reachable projectile
never holds more than 500 points. -/
theorem C10_trajectory_cap (p : Projectile) :
    (p.isFlying = true → p.hasLanded = false →
      (Projectile.update p).trajectory =
        if p.trajectory.length < 500 then
          p.trajectory ++ [(p.state.x, p.state.y)]
        else p.trajectory) ∧
    (Reachable p → p.trajectory.length ≤ 500) := by
  constructor
  · intro hf hl
    have hno : ¬(p.isFlying = false ∨ p.hasLanded = true) := by
      simp [hf, hl]
    unfold Projectile.update
    rw [if_neg hno]
    by_cases hc : p.nextState.y ≤ 0 ∧ p.time + PhysicsEngine.dt > 0.01
    · rw [if_pos hc]
      rfl
    · rw [if_neg hc]
      rfl
  · intro hr
    induction hr with
    | created params => simp [Projectile.create, Projectile.reset]
    | launched _ _ => simp [Projectile.launch, Projectile.reset]
    | updated hq ih =>
      unfold Projectile.update
      split_ifs with h1 h2
      · exact ih
      · show (Projectile.tickTrajectory _).length ≤ 500
        unfold Projectile.tickTrajectory
        split_ifs with h3
        · simp only [Projectile.maxTrajectoryPoints] at h3
          simp only [List.length_append, List.length_singleton]
          omega
        · exact ih
      · show (Projectile.tickTrajectory _).length ≤ 500
        unfold Projectile.tickTrajectory
        split_ifs with h3
        · simp only [Projectile.maxTrajectoryPoints] at h3
          simp only [List.length_append, List.length_singleton]
          omega
        · exact ih
    | hasReset _ _ => simp [Projectile.reset]

/-- Counterexample for C10 as stated: after the first tick of the
zero-angle flight the projectile has landed with `range = 0`, and the
clamped landing position `(range, 0) = (0, 0)` IS an element of the
stored trajectory. -/
theorem C10_counterexample :
    (Projectile.update (Projectile.launch (Projectile.create
      zeroAngleParams))).hasLanded = true ∧
    ((Projectile.update (Projectile.launch (Projectile.create
      zeroAngleParams))).range, 0) ∈
      (Projectile.update (Projectile.launch (Projectile.create
        zeroAngleParams))).trajectory := by
  rw [update_zeroAngle_eval]
  exact ⟨rfl, by simp⟩

/-- Witness for C10 at the launched zero-angle projectile. -/
theorem C10_witness :
    ((Projectile.update (Projectile.launch (Projectile.create
      zeroAngleParams))).trajectory =
      if (Projectile.launch (Projectile.create
          zeroAngleParams)).trajectory.length < 500 then
        (Projectile.launch (Projectile.create
          zeroAngleParams)).trajectory ++
          [((Projectile.launch (Projectile.create
              zeroAngleParams)).state.x,
            (Projectile.launch (Projectile.create
              zeroAngleParams)).state.y)]
      else (Projectile.launch (Projectile.create
        zeroAngleParams)).trajectory) ∧
    (Projectile.create zeroAngleParams).trajectory.length ≤ 500 :=
  ⟨(C10_trajectory_cap (Projectile.launch (Projectile.create
        zeroAngleParams))).1
      (by rw [launch_zeroAngle_eval]) (by rw [launch_zeroAngle_eval]),
   (C10_trajectory_cap (Projectile.create zeroAngleParams)).2
      (Reachable.created zeroAngleParams)⟩

/-- `update()` is the identity whenever the projectile is not actively
flying (the `if (!this.isFlying || this.hasLanded) return` guard). -/
theorem update_inactive (p : Projectile)
    (h : ¬(p.isFlying = true ∧ p.hasLanded = false)) :
    Projectile.update p = p := by
  unfold Projectile.update
  by_cases hf : p.isFlying = true
  · by_cases hl : p.hasLanded = false
    · exact absurd ⟨hf, hl⟩ h
    · rw [if_pos (Or.inr (by simpa using hl))]
  · rw [if_pos (Or.inl (by simpa using hf))]

/-- On an active tick, the new `maxHeight` is the maximum of the old one
and the post-step `y` (computed before the landing clamp). -/
theorem update_maxHeight_active (p : Projectile) (hf : p.isFlying = true)
    (hl : p.hasLanded = false) :
    (Projectile.update p).maxHeight = max p.maxHeight p.nextState.y := by
  have hno : ¬(p.isFlying = false ∨ p.hasLanded = true) := by simp [hf, hl]
  have hmh : Projectile.tickMaxHeight p = max p.maxHeight p.nextState.y := by
    unfold Projectile.tickMaxHeight
    rcases le_or_lt p.nextState.y p.maxHeight with h | h
    · rw [if_neg (not_lt.mpr h), max_eq_left h]
    · rw [if_pos h, max_eq_right h.le]
  unfold Projectile.update
  rw [if_neg hno]
  by_cases hc : p.nextState.y ≤ 0 ∧ p.time + PhysicsEngine.dt > 0.01
  · rw [if_pos hc]
    exact hmh
  · rw [if_neg hc]
    exact hmh

/-- One tick never lowers `maxHeight`. -/
theorem update_maxHeight_mono (p : Projectile) :
    p.maxHeight ≤ (Projectile.update p).maxHeight := by
  by_cases hact : p.isFlying = true ∧ p.hasLanded = false
  · rw [update_maxHeight_active p hact.1 hact.2]
    exact le_max_left _ _
  · rw [update_inactive p hact]

/-- Appending an element to a `max`-fold takes the `max` with it. -/
theorem foldr_max_append (l : List ℝ) (a b : ℝ) :
    (l ++ [a]).foldr max b = max (l.foldr max b) a := by
  induction l with
  | nil => simp [max_comm]
  | cons x xs ih => simp [ih, max_assoc]

/-- C6: `maxHeight` never decreases across a tick; on an active tick it
becomes the maximum of its old value and the post-step `y` (taken before
the landing clamp, which never lowers it); it starts at `0` on launch;
and after any number of ticks of a launched flight it equals the maximum
of the initial `0` and every post-step `y` observed so far. -/
theorem C6_maxHeight_monotone (p : Projectile) (params : LaunchParams)
    (n : ℕ) :
    p.maxHeight ≤ (Projectile.update p).maxHeight ∧
    (p.isFlying = true → p.hasLanded = false →
      (Projectile.update p).maxHeight = max p.maxHeight p.nextState.y) ∧
    (Projectile.launch p).maxHeight = 0 ∧
    (Projectile.update^[n]
        (Projectile.launch (Projectile.create params))).maxHeight =
      (observedYs (Projectile.launch (Projectile.create params)) n).foldr
        max 0 := by
  refine ⟨update_maxHeight_mono p,
    fun hf hl => update_maxHeight_active p hf hl, rfl, ?_⟩
  induction n with
  | zero => rfl
  | succ n ih =>
    rw [Function.iterate_succ_apply']
    simp only [observedYs]
    by_cases hact :
        (Projectile.update^[n]
          (Projectile.launch (Projectile.create params))).isFlying = true ∧
        (Projectile.update^[n]
          (Projectile.launch (Projectile.create params))).hasLanded = false
    · rw [update_maxHeight_active _ hact.1 hact.2, if_pos hact,
        foldr_max_append, ih]
    · rw [update_inactive _ hact, if_neg hact, ih]

/-- Witness for C6 at the first tick of the launched zero-angle flight. -/
theorem C6_witness :
    (Projectile.update (Projectile.launch (Projectile.create
      zeroAngleParams))).maxHeight =
      max (Projectile.launch (Projectile.create
          zeroAngleParams)).maxHeight
        (Projectile.launch (Projectile.create
          zeroAngleParams)).nextState.y :=
  (C6_maxHeight_monotone (Projectile.launch (Projectile.create
      zeroAngleParams)) zeroAngleParams 1).2.1
    (by rw [launch_zeroAngle_eval]) (by rw [launch_zeroAngle_eval])

/-- Evaluation of `launch()` on a fresh straight-up projectile. -/
theorem launch_vertical_eval :
    Projectile.launch (Projectile.create verticalParams) =
      { v0 := 10, angle := 90, mass := 1, diameter := 0.1, gravity := 9.81
        airResistance := false, windSpeed := 0
        state := { x := 0, y := 0, vx := 0, vy := 10 }
        time := 0, isFlying := true, hasLanded := false
        trajectory := [], maxHeight := 0, range := 0 } := by
  unfold Projectile.launch Projectile.create Projectile.reset verticalParams
  simp only [Projectile.mk.injEq, KState.mk.injEq,
    show (90 : ℝ) * Real.pi / 180 = Real.pi / 2 from by ring,
    Real.cos_pi_div_two, Real.sin_pi_div_two]
  norm_num

/-- Evaluation of the first tick of the straight-up flight: the no-drag
path computes the state at the pre-increment time `0`, whose `y = 0`
lands the flight immediately with `range = 0`. -/
theorem update_vertical_eval :
    Projectile.update (Projectile.launch (Projectile.create
      verticalParams)) =
      { v0 := 10, angle := 90, mass := 1, diameter := 0.1, gravity := 9.81
        airResistance := false, windSpeed := 0
        state := { x := 0, y := 0, vx := 0, vy := 10 }
        time := 0.016, isFlying := false, hasLanded := true
        trajectory := [(0, 0)], maxHeight := 0, range := 0 } := by
  rw [launch_vertical_eval]
  norm_num [Projectile.update, Projectile.nextState,
    Projectile.tickTrajectory, Projectile.tickMaxHeight,
    PhysicsEngine.calculateNoAirResistance, Projectile.maxTrajectoryPoints,
    PhysicsEngine.dt, Projectile.mk.injEq, KState.mk.injEq,
    show (90 : ℝ) * Real.pi / 180 = Real.pi / 2 from by ring,
    Real.cos_pi_div_two, Real.sin_pi_div_two]

/-- C1 fails as intent: on the straight-up no-drag flight the first
`update()` evaluates the closed form at the pre-increment time `0`, so it
lands instantly: afterwards `hasLanded` is true, the live `y` is `0` at
elapsed time `0.016`, while `calculateNoAirResistance` at that elapsed
time gives `y = 0.15874432` — the live state can never track the
analytical state at the current `time` beyond the launch instant. -/
theorem C1_no_drag_lands_first_tick :
    (Projectile.update (Projectile.launch (Projectile.create
      verticalParams))).hasLanded = true ∧
    (Projectile.update (Projectile.launch (Projectile.create
      verticalParams))).time = 0.016 ∧
    (Projectile.update (Projectile.launch (Projectile.create
      verticalParams))).state.y = 0 ∧
    (PhysicsEngine.calculateNoAirResistance 10 90 9.81
      (Projectile.update (Projectile.launch (Projectile.create
        verticalParams))).time).y = 0.15874432 ∧
    (Projectile.update (Projectile.launch (Projectile.create
      verticalParams))).state.y ≠
      (PhysicsEngine.calculateNoAirResistance 10 90 9.81
        (Projectile.update (Projectile.launch (Projectile.create
          verticalParams))).time).y := by
  rw [update_vertical_eval]
  norm_num [PhysicsEngine.calculateNoAirResistance,
    show (90 : ℝ) * Real.pi / 180 = Real.pi / 2 from by ring,
    Real.cos_pi_div_two, Real.sin_pi_div_two]

/-- The prediction loop emits at most one point per remaining iteration. -/
theorem calcTrajectoryAux_length_le (params : PredictParams) :
    ∀ (n : ℕ) (t : ℝ) (s : KState),
      (TrajectoryPredictor.calcTrajectoryAux params n t s).length ≤ n := by
  intro n
  induction n with
  | zero =>
    intro t s
    simp [TrajectoryPredictor.calcTrajectoryAux]
  | succ n ih =>
    intro t s
    unfold TrajectoryPredictor.calcTrajectoryAux
    split_ifs with hb
    · simp
    · simpa using ih _ _

/-- Every emitted point except possibly the last fails the break test
`y < 0 ∧ t > 0.01` at its own loop time. -/
theorem calcTrajectoryAux_no_early_break (params : PredictParams) :
    ∀ (n : ℕ) (t : ℝ) (s : KState) (i : ℕ) (pt : ℝ × ℝ),
      i + 1 < (TrajectoryPredictor.calcTrajectoryAux params n t s).length →
      (TrajectoryPredictor.calcTrajectoryAux params n t s)[i]? = some pt →
      ¬(pt.2 < 0 ∧ t + i * 0.05 > 0.01) := by
  intro n
  induction n with
  | zero =>
    intro t s i pt h
    simp [TrajectoryPredictor.calcTrajectoryAux] at h
  | succ n ih =>
    intro t s i pt h hpt
    unfold TrajectoryPredictor.calcTrajectoryAux at h hpt
    split_ifs at h hpt with hb
    · simp only [List.length_singleton] at h
      omega
    · cases i with
      | zero =>
        simp only [List.getElem?_cons_zero, Option.some.injEq] at hpt
        intro hc
        refine hb ⟨?_, ?_⟩
        · rw [← hpt] at hc
          exact hc.1
        · have := hc.2
          push_cast at this
          linarith
      | succ j =>
        simp only [List.getElem?_cons_succ] at hpt
        simp only [List.length_cons] at h
        have h' : j + 1 <
            (TrajectoryPredictor.calcTrajectoryAux params n (t + 0.05)
              (TrajectoryPredictor.predictStep params s t)).length := by
          omega
        have hrec := ih (t + 0.05) (TrajectoryPredictor.predictStep params s t)
          j pt h' hpt
        intro hc
        refine hrec ⟨hc.1, ?_⟩
        have := hc.2
        push_cast at this ⊢
        linarith

/-- C9: `calculateTrajectory` always returns a finite sequence of at most
600 points (loop sub-step `0.05` up to `maxTime = 30`), and stops as soon
as an emitted point has `y < 0` past the `t > 0.01` guard: every point
except possibly the last fails that break test. (The function is a pure
map from parameters to a fresh list, so it can mutate no live
projectile.) -/
theorem C9_predictor_bounded (params : PredictParams) :
    (TrajectoryPredictor.calculateTrajectory params).length ≤ 600 ∧
    ∀ (i : ℕ) (pt : ℝ × ℝ),
      i + 1 < (TrajectoryPredictor.calculateTrajectory params).length →
      (TrajectoryPredictor.calculateTrajectory params)[i]? = some pt →
      ¬(pt.2 < 0 ∧ (i : ℝ) * 0.05 > 0.01) := by
  constructor
  · exact calcTrajectoryAux_length_le params 600 0 _
  · intro i pt h hpt
    have := calcTrajectoryAux_no_early_break params 600 0 _ i pt h hpt
    simpa using this

/-- Unfolding equation for one prediction-loop iteration. -/
theorem calcTrajectoryAux_succ (params : PredictParams) (n : ℕ) (t : ℝ)
    (s : KState) :
    TrajectoryPredictor.calcTrajectoryAux params (n + 1) t s =
      if s.y < 0 ∧ t > 0.01 then [(s.x, s.y)]
      else (s.x, s.y) ::
        TrajectoryPredictor.calcTrajectoryAux params n (t + 0.05)
          (TrajectoryPredictor.predictStep params s t) := rfl

/-- The analytic prediction step for the straight-down parameters,
independent of the incoming throwaway state. -/
theorem predictStep_downward_eval (s : KState) (t : ℝ) :
    TrajectoryPredictor.predictStep downwardPredictParams s t =
      { x := 0, y := -10 * t - 4.905 * (t * t), vx := 0,
        vy := -10 - 9.81 * t } := by
  unfold TrajectoryPredictor.predictStep
  rw [if_neg (by norm_num [downwardPredictParams])]
  rw [show downwardPredictParams.velocity = (10 : ℝ) from rfl,
    show downwardPredictParams.angle = (-90 : ℝ) from rfl,
    show downwardPredictParams.gravity = (9.81 : ℝ) from rfl]
  unfold PhysicsEngine.calculateNoAirResistance
  rw [show (-90 : ℝ) * Real.pi / 180 = -(Real.pi / 2) from by ring]
  dsimp only
  rw [Real.cos_neg, Real.sin_neg, Real.cos_pi_div_two, Real.sin_pi_div_two]
  simp only [KState.mk.injEq]
  refine ⟨by ring, by ring, by ring, by ring⟩

/-- Evaluation of the straight-down preview: three points, the last one
below ground. -/
theorem downwardTrajectory_eval :
    TrajectoryPredictor.calculateTrajectory downwardPredictParams =
      [(0, 0), (0, 0), (0, -0.5122625)] := by
  unfold TrajectoryPredictor.calculateTrajectory
  rw [show (600 : ℕ) = 599 + 1 from rfl, calcTrajectoryAux_succ]
  rw [if_neg (by norm_num)]
  rw [predictStep_downward_eval]
  norm_num
  rw [show (599 : ℕ) = 598 + 1 from rfl, calcTrajectoryAux_succ]
  rw [if_neg (by norm_num)]
  rw [predictStep_downward_eval]
  norm_num
  rw [show (598 : ℕ) = 597 + 1 from rfl, calcTrajectoryAux_succ]
  rw [if_pos (by norm_num)]

/-- Witness for C9: in the straight-down preview (three points), the
middle point does not satisfy the break test. -/
theorem C9_witness :
    ¬(((0, 0) : ℝ × ℝ).2 < 0 ∧ ((1 : ℕ) : ℝ) * 0.05 > 0.01) :=
  (C9_predictor_bounded downwardPredictParams).2 1 (0, 0)
    (by rw [downwardTrajectory_eval]; norm_num)
    (by rw [downwardTrajectory_eval]; simp)

/-- Drag force at purely vertical velocity: no horizontal component, and
vertical component `-0.5·ρ·|vy|·vy·Cd·A` (valid also at `vy = 0`). -/
theorem calculateDragForce_vertical (vy d : ℝ) :
    PhysicsEngine.calculateDragForce 0 vy d =
      (0, -(0.5 * 1.225 * |vy| * vy * 0.47 * (Real.pi * (d / 2) ^ 2))) := by
  unfold PhysicsEngine.calculateDragForce
  rw [show (0 * 0 + vy * vy : ℝ) = vy ^ 2 from by ring, Real.sqrt_sq_eq_abs]
  simp only [PhysicsEngine.AIR_DENSITY, PhysicsEngine.DRAG_COEFFICIENT]
  by_cases hvy : vy = 0
  · simp [hvy]
  · have hpos : 0 < |vy| := abs_pos.mpr hvy
    have hne : |vy| ≠ 0 := ne_of_gt hpos
    rw [if_pos hpos, if_pos hpos, Prod.mk.injEq]
    constructor
    · simp
    · field_simp
      ring

/-- With diameter `2/√π` the cross-sectional area `π·(d/2)²` is `1`. -/
theorem area_unit : Real.pi * ((2 / Real.sqrt Real.pi) / 2) ^ 2 = 1 := by
  have hsq : Real.sqrt Real.pi ^ 2 = Real.pi := Real.sq_sqrt Real.pi_pos.le
  rw [show (2 / Real.sqrt Real.pi) / 2 = (Real.sqrt Real.pi)⁻¹ from by ring,
    inv_pow, hsq, mul_inv_cancel₀ (ne_of_gt Real.pi_pos)]

/-- One Euler step of the straight-up drag flight (mass `1`, diameter
`2/√π`, `g = 9.81`, no wind) in closed form. -/
theorem integrateStep_vertical (x y vy : ℝ) :
    PhysicsEngine.integrateStep { x := x, y := y, vx := 0, vy := vy } 1
      (2 / Real.sqrt Real.pi) 9.81 true 0 =
      { x := x, y := y + vy * 0.016, vx := 0,
        vy := vy + (-9.81 - 0.5 * 1.225 * |vy| * vy * 0.47) * 0.016 } := by
  unfold PhysicsEngine.integrateStep
  simp only [calculateDragForce_vertical, area_unit, PhysicsEngine.dt]
  norm_num [KState.mk.injEq]
  ring

/-- `nextState` of the straight-up drag flight in closed form. -/
theorem nextState_dragRecord (x y vy tm : ℝ) (fl ld : Bool)
    (tr : List (ℝ × ℝ)) (mh rg : ℝ) :
    Projectile.nextState
      { v0 := 0.1, angle := 90, mass := 1
        diameter := 2 / Real.sqrt Real.pi, gravity := 9.81
        airResistance := true, windSpeed := 0
        state := { x := x, y := y, vx := 0, vy := vy }, time := tm
        isFlying := fl, hasLanded := ld, trajectory := tr
        maxHeight := mh, range := rg } =
      { x := x, y := y + vy * 0.016, vx := 0,
        vy := vy + (-9.81 - 0.5 * 1.225 * |vy| * vy * 0.47) * 0.016 } := by
  unfold Projectile.nextState
  rw [if_pos (Or.inl rfl)]
  exact integrateStep_vertical x y vy

/-- Evaluation of `launch()` on the straight-up drag projectile. -/
theorem launch_drag_eval :
    Projectile.launch (Projectile.create dragParams) =
      { v0 := 0.1, angle := 90, mass := 1
        diameter := 2 / Real.sqrt Real.pi, gravity := 9.81
        airResistance := true, windSpeed := 0
        state := { x := 0, y := 0, vx := 0, vy := 0.1 }
        time := 0, isFlying := true, hasLanded := false
        trajectory := [], maxHeight := 0, range := 0 } := by
  unfold Projectile.launch Projectile.create Projectile.reset dragParams
  simp only [Projectile.mk.injEq, KState.mk.injEq,
    show (90 : ℝ) * Real.pi / 180 = Real.pi / 2 from by ring,
    Real.cos_pi_div_two, Real.sin_pi_div_two]
  norm_num

/-- First tick of the straight-up drag flight: it rises to `y = 0.0016`
and keeps flying. -/
theorem drag_tick1_eval :
    Projectile.update (Projectile.launch (Projectile.create dragParams)) =
      { v0 := 0.1, angle := 90, mass := 1
        diameter := 2 / Real.sqrt Real.pi, gravity := 9.81
        airResistance := true, windSpeed := 0
        state := { x := 0, y := 0.0016, vx := 0, vy := -0.05700606 }
        time := 0.016, isFlying := true, hasLanded := false
        trajectory := [(0, 0)], maxHeight := 0.0016, range := 0 } := by
  rw [launch_drag_eval]
  unfold Projectile.update
  rw [nextState_dragRecord,
    show |(0.1 : ℝ)| = 0.1 from abs_of_pos (by norm_num)]
  rw [if_neg (by simp)]
  rw [if_neg (by norm_num [PhysicsEngine.dt])]
  unfold Projectile.tickTrajectory Projectile.tickMaxHeight
  rw [nextState_dragRecord,
    show |(0.1 : ℝ)| = 0.1 from abs_of_pos (by norm_num)]
  norm_num [Projectile.maxTrajectoryPoints, PhysicsEngine.dt,
    Projectile.mk.injEq, KState.mk.injEq]

/-- Second tick of the straight-up drag flight: still above ground, still
flying, now descending. -/
theorem drag_tick2_eval :
    Projectile.update (Projectile.update (Projectile.launch
      (Projectile.create dragParams))) =
      { v0 := 0.1, angle := 90, mass := 1
        diameter := 2 / Real.sqrt Real.pi, gravity := 9.81
        airResistance := true, windSpeed := 0
        state := { x := 0, y := 0.00068790304, vx := 0,
                   vy := -0.05700606 +
                     (-9.81 - 0.5 * 1.225 * 0.05700606 * (-0.05700606) *
                       0.47) * 0.016 }
        time := 0.032, isFlying := true, hasLanded := false
        trajectory := [(0, 0), (0, 0.0016)], maxHeight := 0.0016
        range := 0 } := by
  rw [drag_tick1_eval]
  unfold Projectile.update
  rw [nextState_dragRecord,
    show |(-0.05700606 : ℝ)| = 0.05700606 from by
      rw [abs_of_neg (by norm_num)]; norm_num]
  rw [if_neg (by simp)]
  rw [if_neg (by norm_num [PhysicsEngine.dt])]
  unfold Projectile.tickTrajectory Projectile.tickMaxHeight
  rw [nextState_dragRecord,
    show |(-0.05700606 : ℝ)| = 0.05700606 from by
      rw [abs_of_neg (by norm_num)]; norm_num]
  norm_num [Projectile.maxTrajectoryPoints, PhysicsEngine.dt,
    Projectile.mk.injEq, KState.mk.injEq]

/-- Third tick of the straight-up drag flight: the post-step `y` is below
ground, so the flight lands with `range = x = 0`. -/
theorem drag_tick3_lands :
    (Projectile.update (Projectile.update (Projectile.update
      (Projectile.launch (Projectile.create dragParams))))).hasLanded =
        true ∧
    (Projectile.update (Projectile.update (Projectile.update
      (Projectile.launch (Projectile.create dragParams))))).range = 0 := by
  rw [drag_tick2_eval]
  unfold Projectile.update
  rw [nextState_dragRecord]
  rw [if_neg (by simp)]
  rw [if_pos (by norm_num [PhysicsEngine.dt])]
  exact ⟨rfl, rfl⟩

/-- Evaluation of `launch()` on the straight-up no-drag projectile. -/
theorem launch_noDrag_eval :
    Projectile.launch (Projectile.create noDragParams) =
      { v0 := 0.1, angle := 90, mass := 1
        diameter := 2 / Real.sqrt Real.pi, gravity := 9.81
        airResistance := false, windSpeed := 0
        state := { x := 0, y := 0, vx := 0, vy := 0.1 }
        time := 0, isFlying := true, hasLanded := false
        trajectory := [], maxHeight := 0, range := 0 } := by
  unfold Projectile.launch Projectile.create Projectile.reset noDragParams
  simp only [Projectile.mk.injEq, KState.mk.injEq,
    show (90 : ℝ) * Real.pi / 180 = Real.pi / 2 from by ring,
    Real.cos_pi_div_two, Real.sin_pi_div_two]
  norm_num

/-- First tick of the straight-up no-drag flight: the analytical path at
the pre-increment time `0` gives `y = 0`, so it lands at once with
`range = 0`. -/
theorem update_noDrag_eval :
    Projectile.update (Projectile.launch (Projectile.create
      noDragParams)) =
      { v0 := 0.1, angle := 90, mass := 1
        diameter := 2 / Real.sqrt Real.pi, gravity := 9.81
        airResistance := false, windSpeed := 0
        state := { x := 0, y := 0, vx := 0, vy := 0.1 }
        time := 0.016, isFlying := false, hasLanded := true
        trajectory := [(0, 0)], maxHeight := 0, range := 0 } := by
  rw [launch_noDrag_eval]
  norm_num [Projectile.update, Projectile.nextState,
    Projectile.tickTrajectory, Projectile.tickMaxHeight,
    PhysicsEngine.calculateNoAirResistance, Projectile.maxTrajectoryPoints,
    PhysicsEngine.dt, Projectile.mk.injEq, KState.mk.injEq,
    show (90 : ℝ) * Real.pi / 180 = Real.pi / 2 from by ring,
    Real.cos_pi_div_two, Real.sin_pi_div_two]

/-- C4 fails on the code: at the valid parameters `v0 = 0.1 > 0`,
`angle = 90° ∈ [0°, 90°]`, `g = 9.81 > 0`, `mass = 1 > 0`,
`diameter = 2/√π > 0`, `windSpeed = 0`, the no-drag flight lands on its
first tick with `range = 0` and the drag flight lands on its third tick
also with `range = 0`, so the landed range with drag is NOT strictly less
than the landed range without drag. -/
theorem C4_drag_range_not_less :
    (0 : ℝ) < 2 / Real.sqrt Real.pi ∧
    (Projectile.update (Projectile.launch (Projectile.create
      noDragParams))).hasLanded = true ∧
    (Projectile.update (Projectile.launch (Projectile.create
      noDragParams))).range = 0 ∧
    (Projectile.update (Projectile.update (Projectile.update
      (Projectile.launch (Projectile.create dragParams))))).hasLanded =
        true ∧
    (Projectile.update (Projectile.update (Projectile.update
      (Projectile.launch (Projectile.create dragParams))))).range = 0 ∧
    ¬((Projectile.update (Projectile.update (Projectile.update
        (Projectile.launch (Projectile.create dragParams))))).range <
      (Projectile.update (Projectile.launch (Projectile.create
        noDragParams))).range) := by
  refine ⟨?_, ?_, ?_, drag_tick3_lands.1, drag_tick3_lands.2, ?_⟩
  · positivity
  · rw [update_noDrag_eval]
  · rw [update_noDrag_eval]
  · rw [update_noDrag_eval, drag_tick3_lands.2]
    norm_num
